import Mathlib

/-!
Verification of the `notifiers` email/SMTP provider
(`src/notifiers/providers/email.py`) against its natural-language
specification.

The provider is shallowly embedded: Python dicts become association lists
over an inductive `Value` type, the stateful SMTP client becomes explicit
state passing over `SMTPState`, the network and the filesystem become an
oracle (`World`), and Python exceptions become an inductive `Exc` carried
in `Except`.  Every transport call attempted is recorded in an event
trace, so temporal claims (ordering, "zero transport calls") are
statements about the trace.
-/

namespace Notifiers

/-- A Python value as it occurs in a request dict for this provider:
strings, integers, booleans, and lists. -/
inductive Value where
  | str : String → Value
  | int : Int → Value
  | bool : Bool → Value
  | list : List Value → Value

mutual

/-- Decidable equality for `Value` (nested in `List`, so not derivable
automatically). -/
def Value.decEq : (a b : Value) → Decidable (a = b)
  | .str a, .str b =>
      match String.decEq a b with
      | isTrue h => isTrue (by rw [h])
      | isFalse h => isFalse (fun hh => by cases hh; exact h rfl)
  | .str _, .int _ => isFalse (fun h => by cases h)
  | .str _, .bool _ => isFalse (fun h => by cases h)
  | .str _, .list _ => isFalse (fun h => by cases h)
  | .int _, .str _ => isFalse (fun h => by cases h)
  | .int a, .int b =>
      match Int.instDecidableEq a b with
      | isTrue h => isTrue (by rw [h])
      | isFalse h => isFalse (fun hh => by cases hh; exact h rfl)
  | .int _, .bool _ => isFalse (fun h => by cases h)
  | .int _, .list _ => isFalse (fun h => by cases h)
  | .bool _, .str _ => isFalse (fun h => by cases h)
  | .bool _, .int _ => isFalse (fun h => by cases h)
  | .bool a, .bool b =>
      match Bool.decEq a b with
      | isTrue h => isTrue (by rw [h])
      | isFalse h => isFalse (fun hh => by cases hh; exact h rfl)
  | .bool _, .list _ => isFalse (fun h => by cases h)
  | .list _, .str _ => isFalse (fun h => by cases h)
  | .list _, .int _ => isFalse (fun h => by cases h)
  | .list _, .bool _ => isFalse (fun h => by cases h)
  | .list a, .list b =>
      match Value.decEqList a b with
      | isTrue h => isTrue (by rw [h])
      | isFalse h => isFalse (fun hh => by cases hh; exact h rfl)

/-- Decidable equality for lists of `Value`. -/
def Value.decEqList : (a b : List Value) → Decidable (a = b)
  | [], [] => isTrue rfl
  | [], _ :: _ => isFalse (fun h => by cases h)
  | _ :: _, [] => isFalse (fun h => by cases h)
  | a :: as, b :: bs =>
      match Value.decEq a b, Value.decEqList as bs with
      | isTrue h1, isTrue h2 => isTrue (by rw [h1, h2])
      | isFalse h1, _ => isFalse (fun h => by cases h; exact h1 rfl)
      | _, isFalse h2 => isFalse (fun h => by cases h; exact h2 rfl)

end

instance : DecidableEq Value := Value.decEq

/-- Python truthiness, as used by `if data.get("from_")`,
`if data["tls"]`, etc.: empty strings, zero, `False` and empty lists are
falsy. -/
def Value.truthy : Value → Bool
  | .str s => s != ""
  | .int n => n != 0
  | .bool b => b
  | .list xs => !xs.isEmpty

/-- Python `isinstance(v, list)`. -/
def Value.isList : Value → Bool
  | .list _ => true
  | _ => false

/-- A request dict: an association list from field names to values.
Python dicts have unique keys; the operations below behave exactly like
Python's on such lists. -/
abbrev Data := List (String × Value)

/-- Python `data.get(k)` / `k in data`: first binding of `k`. -/
def dictLookup : Data → String → Option Value
  | [], _ => none
  | (k', v') :: rest, k => if k' = k then some v' else dictLookup rest k

/-- Python `data[k] = v`: replace the first binding of `k` in place, or append a
new binding (Python dicts keep insertion order). -/
def dictSet : Data → String → Value → Data
  | [], k, v => [(k, v)]
  | (k', v') :: rest, k, v =>
      if k' = k then (k, v) :: rest else (k', v') :: dictSet rest k v

/-- Python `data.pop(k)` (the removal part): drop the binding of `k`. -/
def dictPop : Data → String → Data
  | [], _ => []
  | (k', v') :: rest, k =>
      if k' = k then dictPop rest k else (k', v') :: dictPop rest k

/-- The exceptions that can arise in `_send_notification`.  The
constructors mirror the Python classes that appear in the source:
the `except` tuple `(SMTPServerDisconnected, SMTPSenderRefused,
socket.error, OSError, IOError, SMTPAuthenticationError)` (in Python 3,
`socket.error` and `IOError` are aliases of `OSError`, kept as one
constructor), plus `KeyError` from `data[...]` on a missing key and
`TypeError` from joining/iterating ill-typed values, which are *not* in
the `except` tuple. -/
inductive Exc where
  | smtpServerDisconnected : String → Exc
  | smtpSenderRefused : String → Exc
  | smtpAuthenticationError : String → Exc
  | osError : String → Exc
  | keyError : String → Exc
  | typeError : String → Exc
  | other : String → Exc
deriving DecidableEq

/-- Whether the exception is caught by the `except` clause of
`_send_notification` (lines 169–176 of the source). -/
def Exc.caught : Exc → Bool
  | .smtpServerDisconnected _ => true
  | .smtpSenderRefused _ => true
  | .smtpAuthenticationError _ => true
  | .osError _ => true
  | .keyError _ => false
  | .typeError _ => false
  | .other _ => false

/-- Python `str(e)`, the human-readable message put into the error list. -/
def Exc.str : Exc → String
  | .smtpServerDisconnected m => m
  | .smtpSenderRefused m => m
  | .smtpAuthenticationError m => m
  | .osError m => m
  | .keyError k => k
  | .typeError m => m
  | .other m => m

/-- Python `data[k]`: like `dictLookup` but raising `KeyError` on a missing
key, as Python subscripting does. -/
def dictGet (d : Data) (k : String) : Except Exc Value :=
  match dictLookup d k with
  | some v => .ok v
  | none => .error (.keyError k)

/-- The uniform result of a dispatch call.  Modelled from the spec:
`Response` and `create_response` live in notifiers core, which is not
under `src/`; per spec §3/§6 a Response carries the request data, a
success flag, and an optional non-empty list of error messages, with
success exactly when no errors are present. -/
structure Response where
  data : Data
  success : Bool
  errors : Option (List String)
deriving DecidableEq

/-- Modelled from the spec: `create_response` (notifiers core, not in
`src/`) wraps the data and the optional error list into a `Response`,
marking success exactly when there are no errors. -/
def create_response (data : Data) (errors : Option (List String)) : Response :=
  { data := data, success := errors.isNone, errors := errors }

/-- Keep only the `String` elements of a list, failing if any element is
not a string (as `",".join` does). -/
def asStrings : List Value → Option (List String)
  | [] => some []
  | v :: rest =>
      match v with
      | .str s => (asStrings rest).map (fun ss => s :: ss)
      | _ => none

/-- Modelled from the spec: `list_to_commas`
(`notifiers/utils/schema/helpers.py`, not under `src/`) joins a list of
destination strings into one comma-delimited string, order preserved
(spec §4.3 "comma-joined address list ... with no reordering").
Joining a non-string element is a `TypeError`, as in `",".join`. -/
def list_to_commas (xs : List Value) : Except Exc Value :=
  match asStrings xs with
  | some ss => .ok (.str (String.intercalate "," ss))
  | none => .error (.typeError "sequence item: expected str instance")

/-- First statement of `SMTP._prepare_data` (source lines 104–105):
`if isinstance(data["to"], list): data["to"] = list_to_commas(data["to"])`,
given the already-fetched value of `data["to"]`. -/
def collapse_to (data : Data) (vto : Value) : Except Exc Data :=
  match vto with
  | .list xs =>
      match list_to_commas xs with
      | .error e => .error e
      | .ok joined => .ok (dictSet data "to" joined)
  | _ => .ok data

/-- Second statement of `SMTP._prepare_data` (source lines 107–108):
`if data.get("from_"): data["from"] = data.pop("from_")`. -/
def resolve_from_alias (data : Data) : Data :=
  match dictLookup data "from_" with
  | some v =>
      if v.truthy then dictSet (dictPop data "from_") "from" v
      else data
  | none => data

/-- The method `SMTP._prepare_data` (source lines 103–109): collapse a list-valued
`to` into a comma-joined string, then move a truthy `from_` onto `from`
and remove the `from_` key.  A missing `to` is a `KeyError`. -/
def prepare_data (data : Data) : Except Exc Data :=
  match dictGet data "to" with
  | .error e => .error e
  | .ok vto =>
      match collapse_to data vto with
      | .error e => .error e
      | .ok d2 => .ok (resolve_from_alias d2)

/-- The transport payload built by `SMTP._build_email` /
`SMTP._add_attachments`.  The `Date` header (`formatdate(localtime=True)`)
is wall-clock time and is not modelled; no claim mentions it.  An
attachment part is the pair of the value passed as `filename=attachment`
and the raw bytes read from the file. -/
structure Email where
  to' : Value
  from' : Value
  subject : Value
  contentType : String
  message : Value
  attachments : List (Value × List Nat)
deriving DecidableEq

/-- The method `SMTP._build_email` (source lines 111–120): read the header fields
from the dict (Python subscripting, so a missing key is a `KeyError`),
choose `"html"` or `"plain"` from the truthiness of `data["html"]`, and
attach the single body part. -/
def build_email (data : Data) : Except Exc Email :=
  match dictGet data "to" with
  | .error e => .error e
  | .ok vto =>
      match dictGet data "from" with
      | .error e => .error e
      | .ok f =>
          match dictGet data "subject" with
          | .error e => .error e
          | .ok subj =>
              match dictGet data "html" with
              | .error e => .error e
              | .ok html =>
                  match dictGet data "message" with
                  | .error e => .error e
                  | .ok msg =>
                      .ok { to' := vto, from' := f, subject := subj,
                            contentType := if html.truthy then "html" else "plain",
                            message := msg, attachments := [] }

/-- The handle stored in `self.smtp_server`: which client class was
instantiated (`smtplib.SMTP_SSL` vs `smtplib.SMTP`) and a creation
counter distinguishing distinct instances. -/
structure Handle where
  id : Nat
  ssl : Bool
deriving DecidableEq

/-- The Session Identity returned by `SMTP._get_configuration`:
`(data["host"], data["port"], data.get("username"))`. -/
abbrev Config := Value × Value × Option Value

/-- The mutable instance fields of the provider
(`self.smtp_server`, `self.configuration`), plus a counter used to give
each freshly created client instance a distinct `Handle.id`. -/
structure SMTPState where
  smtp_server : Option Handle
  configuration : Option Config
  nextId : Nat
deriving DecidableEq

/-- The constructor `SMTP.__init__` (source lines 86–89): both fields start as `None`. -/
def SMTP.init : SMTPState :=
  { smtp_server := none, configuration := none, nextId := 0 }

/-- One attempted call on the transport collaborator.  An event is
recorded at the moment the call is issued, whether or not it succeeds. -/
inductive Event where
  | connect : Value → Value → Event
  | ehlo : Event
  | starttls : Event
  | login : Value → Value → Event
  | sendMessage : Email → Event
deriving DecidableEq

/-- Number of `connect` calls in a trace (how many times the
connect-and-authenticate sequence was started). -/
def countConnects (tr : List Event) : Nat :=
  (tr.filter (fun e => match e with | .connect _ _ => true | _ => false)).length

/-- Number of `login` (authentication) calls in a trace. -/
def countLogins (tr : List Event) : Nat :=
  (tr.filter (fun e => match e with | .login _ _ => true | _ => false)).length

/-- The external world: the outcome of each transport call and the
filesystem (`Path(...).read_bytes`).  `none` means the call succeeds;
`some e` means it raises `e`.  For a path, `fs` returns the file's bytes
or `none` when the file is missing/unreadable. -/
structure World where
  connectResult : Value → Value → Option Exc
  ehloResult : Option Exc
  starttlsResult : Option Exc
  loginResult : Value → Value → Option Exc
  sendResult : Email → Option Exc
  fs : String → Option (List Nat)

/-- Python `Path(attachment).read_bytes()`: a missing/unreadable file raises
`FileNotFoundError`/`PermissionError`, both subclasses of `OSError`;
a non-string path raises `TypeError`. -/
def readBytes (w : World) (path : Value) : Except Exc (List Nat) :=
  match path with
  | .str s =>
      match w.fs s with
      | some bytes => .ok bytes
      | none => .error (.osError ("No such file or directory: " ++ s))
  | _ => .error (.typeError "argument should be a str or an os.PathLike object")

/-- Python iteration (`for attachment in data["attachments"]`): a list
yields its elements, a string yields its one-character substrings, other
values are not iterable (`TypeError`). -/
def pyIterate : Value → Except Exc (List Value)
  | .list xs => .ok xs
  | .str s => .ok (s.toList.map (fun c => .str c.toString))
  | _ => .error (.typeError "object is not iterable")

/-- The method `SMTP._add_attachments` (source lines 122–129): for each attachment,
read the file's bytes and append a part carrying them, tagged with the
original value as filename, in input order.  The first failing read
aborts the whole build. -/
def add_attachments (w : World) (data : Data) (email : Email) : Except Exc Email :=
  match dictGet data "attachments" with
  | .error e => .error e
  | .ok av =>
      match pyIterate av with
      | .error e => .error e
      | .ok items =>
          items.foldlM
            (fun em item =>
              match readBytes w item with
              | .error e => .error e
              | .ok bytes =>
                  .ok { em with attachments := em.attachments ++ [(item, bytes)] })
            email

/-- The method `SMTP._get_configuration` (source lines 147–149): the Session
Identity `(data["host"], data["port"], data.get("username"))`. -/
def get_configuration (data : Data) : Except Exc Config :=
  match dictGet data "host" with
  | .error e => .error e
  | .ok h =>
      match dictGet data "port" with
      | .error e => .error e
      | .ok p => .ok (h, p, dictLookup data "username")

/-- The reuse/reconnect decision of `_send_notification` (source lines
156–160): `not self.configuration or not self.smtp_server or
self.configuration != configuration`.  (A stored identity is a non-empty
tuple, so its Python truthiness is exactly non-`None`-ness.) -/
def needsReconnect (st : SMTPState) (configuration : Config) : Bool :=
  st.configuration.isNone || st.smtp_server.isNone ||
    st.configuration != some configuration

/-- The authentication tail of `SMTP._connect_to_server` (source lines
143–145): `if data.get("username"): self.smtp_server.login(
data["username"], data["password"])`. -/
def connect_login (w : World) (st : SMTPState) (data : Data)
    (tr : List Event) : SMTPState × List Event × Option Exc :=
  match dictLookup data "username" with
  | none => (st, tr, none)
  | some u =>
      if u.truthy then
        match dictLookup data "password" with
        | none => (st, tr, some (.keyError "password"))
        | some pw => (st, tr ++ [Event.login u pw], w.loginResult u pw)
      else (st, tr, none)

/-- The method `SMTP._connect_to_server` (source lines 131–145): pick
`SMTP_SSL`/`SMTP` from `data["ssl"]`, store a fresh client instance in
`self.smtp_server`, connect to `(data["host"], data["port"])`, store the
Session Identity in `self.configuration`, then `ehlo`+`starttls` when
`data["tls"] and not data["ssl"]`, then authenticate when
`data.get("username")` is truthy.  Returns the updated instance state,
the trace of transport calls attempted, and the exception that escaped,
if any.  Note that nothing is rolled back when a step raises. -/
def connect_to_server (w : World) (st : SMTPState) (data : Data) :
    SMTPState × List Event × Option Exc :=
  match dictLookup data "ssl" with
  | none => (st, [], some (.keyError "ssl"))
  | some vssl =>
      let st : SMTPState :=
        { st with smtp_server := some { id := st.nextId, ssl := vssl.truthy },
                  nextId := st.nextId + 1 }
      match dictLookup data "host" with
      | none => (st, [], some (.keyError "host"))
      | some h =>
          match dictLookup data "port" with
          | none => (st, [], some (.keyError "port"))
          | some p =>
              let tr := [Event.connect h p]
              match w.connectResult h p with
              | some e => (st, tr, some e)
              | none =>
                  match get_configuration data with
                  | .error e => (st, tr, some e)
                  | .ok cfg =>
                      let st : SMTPState := { st with configuration := some cfg }
                      match dictLookup data "tls" with
                      | none => (st, tr, some (.keyError "tls"))
                      | some vtls =>
                          if vtls.truthy && !vssl.truthy then
                            let tr := tr ++ [Event.ehlo]
                            match w.ehloResult with
                            | some e => (st, tr, some e)
                            | none =>
                                let tr := tr ++ [Event.starttls]
                                match w.starttlsResult with
                                | some e => (st, tr, some e)
                                | none => connect_login w st data tr
                          else connect_login w st data tr

/-- The `except (...) as e` clause of `_send_notification` (source lines
169–177): a caught exception becomes the one-element error list
`[str(e)]` of the returned Response; any other exception propagates to
the caller. -/
def handleExc (data : Data) (st : SMTPState) (tr : List Event) (e : Exc) :
    SMTPState × List Event × Except Exc Response :=
  if e.caught then (st, tr, .ok (create_response data (some [e.str])))
  else (st, tr, .error e)

/-- The guard `if data.get("attachments"):` of `_send_notification`
(source line 165). -/
def attachments_truthy (data : Data) : Bool :=
  match dictLookup data "attachments" with
  | some v => v.truthy
  | none => false

/-- The body of the `try` block of `_send_notification` after the
reconnect step (source lines 163–168): build the email, add attachments
when `data.get("attachments")` is truthy, transmit, and map exceptions
through the `except` clause.  `st` and `tr` are the instance state and
the trace accumulated by the reconnect step. -/
def send_body (w : World) (data : Data) (st : SMTPState) (tr : List Event) :
    SMTPState × List Event × Except Exc Response :=
  match build_email data with
  | .error e => handleExc data st tr e
  | .ok email =>
      match (if attachments_truthy data then add_attachments w data email
             else .ok email) with
      | .error e => handleExc data st tr e
      | .ok email2 =>
          match w.sendResult email2 with
          | some e => handleExc data st (tr ++ [Event.sendMessage email2]) e
          | none => (st, tr ++ [Event.sendMessage email2],
              .ok (create_response data none))

/-- The method `SMTP._send_notification` (source lines 151–178): compute the Session
Identity, reconnect if there is no stored identity, no stored client, or
the stored identity differs, then run the rest of the `try` block; every
exception of the closed `except` set becomes the Response's error list,
every other exception propagates. -/
def send_notification (w : World) (st : SMTPState) (data : Data) :
    SMTPState × List Event × Except Exc Response :=
  match get_configuration data with
  | .error e => handleExc data st [] e
  | .ok configuration =>
      let step :=
        if needsReconnect st configuration then connect_to_server w st data
        else (st, ([] : List Event), (none : Option Exc))
      match step.2.2 with
      | some e => handleExc data step.1 step.2.1 e
      | none => send_body w data step.1 step.2.1

/-! ## The dispatch pipeline around `_send_notification`

The defaults and the schema are data of the source file; the merger, the
validator and the dispatcher live in notifiers core, which is not under
`src/`, and are modelled from the spec. -/

def DEFAULT_SUBJECT : String := "New email from 'notifiers'!"

/-- In the source this is `f"{getpass.getuser()}@{socket.getfqdn()}"`, an
environment-dependent constant; its concrete value is irrelevant to every
claim. -/
def DEFAULT_FROM : String := "user@localhost"

def DEFAULT_SMTP_HOST : String := "localhost"

/-- The property `SMTP.defaults` (source lines 91–101). -/
def defaults : Data :=
  [("subject", .str DEFAULT_SUBJECT), ("from", .str DEFAULT_FROM),
   ("host", .str DEFAULT_SMTP_HOST), ("port", .int 25),
   ("tls", .bool false), ("ssl", .bool false), ("html", .bool false)]

/-- Modelled from the spec: §4.2 Defaults Merger (notifiers core, not
under `src/`): for every key of `defaults` absent from the raw request,
insert the default value; never override a caller-supplied value. -/
def merge_defaults (ds raw : Data) : Data :=
  ds.foldl (fun acc kv => if (dictLookup acc kv.1).isSome then acc else acc ++ [kv]) raw

/-- The declared top-level keys of the SMTP schema (source lines 29–84). -/
def schemaKeys : List String :=
  ["message", "subject", "to", "from", "from_", "attachments", "host",
   "port", "username", "password", "tls", "ssl", "html"]

/-- The `_required` declaration of the source (line 27). -/
def requiredKeys : List String := ["message", "to", "username", "password"]

/-- The `dependencies` mapping of the schema (source lines 78–82). -/
def schemaDependencies : List (String × List String) :=
  [("username", ["password"]), ("password", ["username"]), ("ssl", ["tls"])]

def Value.isStr : Value → Bool
  | .str _ => true
  | _ => false

def Value.isBool : Value → Bool
  | .bool _ => true
  | _ => false

/-- Modelled from the spec: the `email` format constraint (the concrete
checker is in notifiers core); shallowly, an email is a string containing
an `@`. -/
def Value.isEmail : Value → Bool
  | .str s => s.contains '@'
  | _ => false

/-- Modelled from the spec: the `hostname` format constraint; shallowly,
a non-empty string. -/
def Value.isHostname : Value → Bool
  | .str s => s != ""
  | _ => false

/-- Modelled from the spec: the `port` format constraint; an integer in
the port range. -/
def Value.isPort : Value → Bool
  | .int n => 0 < n && n < 65536
  | _ => false

/-- A `one_or_more` field: a single scalar satisfying the element check,
or a non-empty list whose elements all satisfy it. -/
def oneOrMore (elem : Value → Bool) (v : Value) : Bool :=
  match v with
  | .list xs => !xs.isEmpty && xs.all elem
  | _ => elem v

/-- The paths named by an `attachments` value (a single path or a list
of paths). -/
def attachmentPaths : Value → List String
  | .str s => [s]
  | .list xs => xs.filterMap (fun v => match v with | .str s => some s | _ => none)
  | _ => []

/-- Modelled from the spec: per-field type/format check of §4.1, driven
by the schema of the source.  For `attachments`, the `valid_file` format
is the existing-readable-file check of §3/§8 against the filesystem
`fs`. -/
def checkField (fs : String → Option (List Nat)) (k : String) (v : Value) :
    List String :=
  match k with
  | "message" | "subject" | "username" | "password" =>
      if v.isStr then [] else [k ++ ": expected a string"]
  | "to" =>
      if oneOrMore Value.isEmail v then []
      else ["to: expected one or more email addresses"]
  | "from" | "from_" =>
      if v.isEmail then [] else [k ++ ": expected an email address"]
  | "attachments" =>
      (if oneOrMore Value.isStr v then []
       else ["attachments: expected one or more file paths"]) ++
      (attachmentPaths v).filterMap
        (fun p => if (fs p).isSome then none
                  else some ("attachments: not a valid file: " ++ p))
  | "host" => if v.isHostname then [] else ["host: expected a hostname"]
  | "port" => if v.isPort then [] else ["port: expected a port number"]
  | "tls" | "ssl" | "html" =>
      if v.isBool then [] else [k ++ ": expected a boolean"]
  | _ => []

/-- Modelled from the spec: §4.1 Schema Validator (notifiers core, not
under `src/`): the required-set check runs first and short-circuits;
then unknown top-level keys (`additionalProperties: False`), per-field
type/format checks, and the dependency map are all reported. -/
def validate (fs : String → Option (List Nat)) (data : Data) : List String :=
  let missing := requiredKeys.filter (fun k => (dictLookup data k).isNone)
  if !missing.isEmpty then
    missing.map (fun k => "required field missing: " ++ k)
  else
    let unknown := ((data.map Prod.fst).filter
      (fun k => !schemaKeys.contains k)).map (fun k => "unknown field: " ++ k)
    let fieldErrs := (data.map (fun kv => checkField fs kv.1 kv.2)).flatten
    let depErrs := (schemaDependencies.map (fun kd =>
      if (dictLookup data kd.1).isSome then
        (kd.2.filter (fun d => (dictLookup data d).isNone)).map
          (fun d => "dependency unmet: " ++ kd.1 ++ " requires " ++ d)
      else [])).flatten
    unknown ++ fieldErrs ++ depErrs

/-- Modelled from the spec: §4.6 Dispatcher / notifiers core `notify`
(not under `src/`): merge defaults into the raw request, validate the
merged request, convert validation failures into the Response's error
list at the dispatch boundary (§7) with no transport activity, otherwise
normalize and hand off to `_send_notification`. -/
def notify (w : World) (st : SMTPState) (raw : Data) :
    SMTPState × List Event × Except Exc Response :=
  let data := merge_defaults defaults raw
  let errs := validate w.fs data
  if errs.isEmpty then
    match prepare_data data with
    | .error e => (st, [], .error e)
    | .ok prepared => send_notification w st prepared
  else (st, [], .ok (create_response data (some errs)))


/-! ## Dictionary lemmas -/

instance {α β : Type} [DecidableEq α] [DecidableEq β] :
    DecidableEq (Except α β) := fun a b =>
  match a, b with
  | .error x, .error y =>
      if h : x = y then isTrue (by rw [h])
      else isFalse (fun hh => by cases hh; exact h rfl)
  | .ok x, .ok y =>
      if h : x = y then isTrue (by rw [h])
      else isFalse (fun hh => by cases hh; exact h rfl)
  | .error _, .ok _ => isFalse (fun h => by cases h)
  | .ok _, .error _ => isFalse (fun h => by cases h)

theorem dictLookup_set_self (d : Data) (k : String) (v : Value) :
    dictLookup (dictSet d k v) k = some v := by
  induction d with
  | nil => simp [dictSet, dictLookup]
  | cons kv rest ih =>
      obtain ⟨k', v'⟩ := kv
      by_cases h : k' = k
      · simp [dictSet, h, dictLookup]
      · simp [dictSet, h, dictLookup, ih]

theorem dictLookup_set_other (d : Data) (k k' : String) (v : Value)
    (h : k' ≠ k) : dictLookup (dictSet d k v) k' = dictLookup d k' := by
  have hne : k ≠ k' := Ne.symm h
  induction d with
  | nil => simp [dictSet, dictLookup, hne]
  | cons kv rest ih =>
      obtain ⟨k0, v0⟩ := kv
      by_cases h0 : k0 = k
      · subst h0
        simp [dictSet, dictLookup, hne]
      · simp [dictSet, dictLookup, h0, ih]

theorem dictLookup_pop_self (d : Data) (k : String) :
    dictLookup (dictPop d k) k = none := by
  induction d with
  | nil => simp [dictPop, dictLookup]
  | cons kv rest ih =>
      obtain ⟨k0, v0⟩ := kv
      by_cases h0 : k0 = k <;> simp [dictPop, dictLookup, h0, ih]

theorem dictLookup_pop_other (d : Data) (k k' : String) (h : k' ≠ k) :
    dictLookup (dictPop d k) k' = dictLookup d k' := by
  induction d with
  | nil => simp [dictPop]
  | cons kv rest ih =>
      obtain ⟨k0, v0⟩ := kv
      by_cases h0 : k0 = k
      · subst h0
        simp [dictPop, dictLookup, Ne.symm h, ih]
      · simp [dictPop, dictLookup, h0, ih]

theorem dictLookup_append_left {d1 : Data} {k : String} {v : Value}
    (d2 : Data) (h : dictLookup d1 k = some v) :
    dictLookup (d1 ++ d2) k = some v := by
  induction d1 with
  | nil => simp [dictLookup] at h
  | cons kv rest ih =>
      obtain ⟨k0, v0⟩ := kv
      by_cases h0 : k0 = k
      · simp_all [dictLookup]
      · simp only [dictLookup, h0, if_false] at h
        simpa [dictLookup, h0] using ih h

/-! ## Shape lemmas about `_prepare_data` -/

theorem list_to_commas_not_list {xs : List Value} {v : Value}
    (h : list_to_commas xs = .ok v) : v.isList = false := by
  unfold list_to_commas at h
  cases hs : asStrings xs with
  | some ss => rw [hs] at h; cases h; rfl
  | none => rw [hs] at h; cases h

/-- What the `to`-collapse step guarantees: afterwards `to` holds a
non-list value and `from_` is untouched. -/
theorem collapse_to_post {data d2 : Data} {vto : Value}
    (hto : dictLookup data "to" = some vto)
    (h : collapse_to data vto = .ok d2) :
    (∃ v2, dictLookup d2 "to" = some v2 ∧ v2.isList = false) ∧
      dictLookup d2 "from_" = dictLookup data "from_" := by
  cases vto with
  | list xs =>
      cases hj : list_to_commas xs with
      | error e =>
          simp only [collapse_to, hj] at h
          exact (Except.noConfusion h)
      | ok joined =>
          simp only [collapse_to, hj] at h
          cases h
          refine ⟨⟨joined, dictLookup_set_self data "to" joined,
            list_to_commas_not_list hj⟩, ?_⟩
          exact dictLookup_set_other data "to" "from_" joined (by decide)
  | str s =>
      simp only [collapse_to] at h
      cases h
      exact ⟨⟨.str s, hto, rfl⟩, rfl⟩
  | int n =>
      simp only [collapse_to] at h
      cases h
      exact ⟨⟨.int n, hto, rfl⟩, rfl⟩
  | bool b =>
      simp only [collapse_to] at h
      cases h
      exact ⟨⟨.bool b, hto, rfl⟩, rfl⟩

/-- Evaluation of the alias-resolution step when `from_` is absent. -/
theorem resolve_from_alias_eq_none (d2 : Data)
    (hf : dictLookup d2 "from_" = none) : resolve_from_alias d2 = d2 := by
  simp [resolve_from_alias, hf]

/-- Evaluation of the alias-resolution step when `from_` is falsy. -/
theorem resolve_from_alias_eq_falsy (d2 : Data) (u : Value)
    (hf : dictLookup d2 "from_" = some u) (htr : u.truthy = false) :
    resolve_from_alias d2 = d2 := by
  simp [resolve_from_alias, hf, htr]

/-- Evaluation of the alias-resolution step when `from_` is truthy. -/
theorem resolve_from_alias_eq_truthy (d2 : Data) (u : Value)
    (hf : dictLookup d2 "from_" = some u) (htr : u.truthy = true) :
    resolve_from_alias d2 = dictSet (dictPop d2 "from_") "from" u := by
  simp [resolve_from_alias, hf, htr]

/-- What the alias-resolution step guarantees: afterwards any remaining
`from_` is falsy, and `to` is untouched. -/
theorem resolve_from_alias_post (d2 : Data) :
    (∀ u, dictLookup (resolve_from_alias d2) "from_" = some u →
        u.truthy = false) ∧
      dictLookup (resolve_from_alias d2) "to" = dictLookup d2 "to" := by
  cases hf : dictLookup d2 "from_" with
  | none =>
      rw [resolve_from_alias_eq_none d2 hf]
      refine ⟨fun u hu => ?_, rfl⟩
      rw [hf] at hu
      cases hu
  | some u =>
      by_cases htr : u.truthy = true
      · rw [resolve_from_alias_eq_truthy d2 u hf htr]
        refine ⟨fun u' hu' => ?_, ?_⟩
        · rw [dictLookup_set_other _ "from" "from_" u (by decide),
            dictLookup_pop_self] at hu'
          cases hu'
        · rw [dictLookup_set_other _ "from" "to" u (by decide),
            dictLookup_pop_other _ "from_" "to" (by decide)]
      · have htr2 : u.truthy = false := by simpa using htr
        rw [resolve_from_alias_eq_falsy d2 u hf htr2]
        refine ⟨fun u' hu' => ?_, rfl⟩
        rw [hf] at hu'
        cases hu'
        exact htr2

/-- What `_prepare_data` guarantees about its output: `to` is present
and no longer a list, and any remaining `from_` is falsy. -/
theorem prepare_data_post {data d1 : Data}
    (h : prepare_data data = .ok d1) :
    (∃ v, dictLookup d1 "to" = some v ∧ v.isList = false) ∧
      (∀ u, dictLookup d1 "from_" = some u → u.truthy = false) := by
  unfold prepare_data dictGet at h
  cases hto : dictLookup data "to" with
  | none =>
      simp only [hto] at h
      exact (Except.noConfusion h)
  | some vto =>
      simp only [hto] at h
      cases hc : collapse_to data vto with
      | error e =>
          simp only [hc] at h
          exact (Except.noConfusion h)
      | ok d2 =>
          simp only [hc] at h
          cases h
          obtain ⟨⟨v2, hto2, hnl2⟩, _⟩ := collapse_to_post hto hc
          obtain ⟨hfrom, hto_pres⟩ := resolve_from_alias_post d2
          exact ⟨⟨v2, by rw [hto_pres]; exact hto2, hnl2⟩, hfrom⟩

/-- A dict whose `to` is present and not a list and whose `from_` (if
present) is falsy is a fixed point of `_prepare_data`. -/
theorem prepare_data_fix (d : Data) (v : Value)
    (hto : dictLookup d "to" = some v) (hv : v.isList = false)
    (hfrom : ∀ u, dictLookup d "from_" = some u → u.truthy = false) :
    prepare_data d = .ok d := by
  have hc : collapse_to d v = .ok d := by
    cases v with
    | list xs => simp [Value.isList] at hv
    | str s => rfl
    | int n => rfl
    | bool b => rfl
  have hr : resolve_from_alias d = d := by
    unfold resolve_from_alias
    cases hf : dictLookup d "from_" with
    | none => rfl
    | some u => simp [hfrom u hf]
  unfold prepare_data dictGet
  simp only [hto, hc, hr]

/-! ## Claims about `_prepare_data` (C6, C7) -/

/-- C7: Normalization is idempotent: for every merged request `x`,
`normalize(normalize(x)) == normalize(x)` — applying `_prepare_data` to
the result of `_prepare_data` changes nothing (a recipient list is
already collapsed to a delimited scalar, the alias field is already
resolved), and a failing normalization propagates unchanged. -/
theorem smtp_C7_prepare_data_idempotent (data : Data) :
    (prepare_data data).bind prepare_data = prepare_data data := by
  cases h : prepare_data data with
  | error e => rfl
  | ok d1 =>
      obtain ⟨⟨v, hto, hnl⟩, hfrom⟩ := prepare_data_post h
      show prepare_data d1 = .ok d1
      exact prepare_data_fix d1 v hto hnl hfrom

/-- A merged request whose `from_` is present but empty: Python's
`data.get("from_")` is falsy on it, so `_prepare_data` does not touch
it. -/
def c6Data : Data :=
  [("to", .str "a@x.com"), ("from", .str "b@x.com"), ("from_", .str "")]

/-- C6, counterexample: in `c6Data` the alias field `from_` *is*
present (bound to the empty string), yet `_prepare_data` returns the
request unchanged: `from_` is not removed and `from` does not receive
the alias value, because the source guards the move with Python
truthiness (`if data.get("from_")`), not presence. -/
theorem smtp_C6_counterexample :
    dictLookup c6Data "from_" = some (.str "") ∧
      prepare_data c6Data = .ok c6Data ∧
      dictLookup c6Data "from" = some (.str "b@x.com") := by
  decide

/-- C6 (amended): for every merged request in which `from_` is
present with a truthy (non-empty) value — as every validated request
has, since the `email` format excludes empty strings — `_prepare_data`
moves the value onto the canonical field `from` and removes the `from_`
key; in particular when both `from` and `from_` are present, the alias
value wins. -/
theorem smtp_C6_alias_resolution (data d1 : Data) (v : Value)
    (hf : dictLookup data "from_" = some v) (htr : v.truthy = true)
    (h : prepare_data data = .ok d1) :
    dictLookup d1 "from" = some v ∧ dictLookup d1 "from_" = none := by
  unfold prepare_data dictGet at h
  cases hto : dictLookup data "to" with
  | none =>
      simp only [hto] at h
      exact (Except.noConfusion h)
  | some vto =>
      simp only [hto] at h
      cases hc : collapse_to data vto with
      | error e =>
          simp only [hc] at h
          exact (Except.noConfusion h)
      | ok d2 =>
          simp only [hc] at h
          cases h
          obtain ⟨_, hfr⟩ := collapse_to_post hto hc
          have hf2 : dictLookup d2 "from_" = some v := by rw [hfr, hf]
          rw [resolve_from_alias_eq_truthy d2 v hf2 htr]
          constructor
          · exact dictLookup_set_self _ "from" v
          · rw [dictLookup_set_other _ "from" "from_" v (by decide),
              dictLookup_pop_self]

/-- A merged request carrying both `from` and a truthy alias `from_`. -/
def c6wData : Data :=
  [("to", .str "a@x.com"), ("from", .str "b@x.com"), ("from_", .str "c@x.com")]

/-- The result of `_prepare_data` on `c6wData`. -/
def c6wOut : Data :=
  [("to", .str "a@x.com"), ("from", .str "c@x.com")]

/-- Witness for the amended C6 at a concrete input: the alias value wins
and the alias key is gone. -/
theorem smtp_C6_witness :
    dictLookup c6wOut "from" = some (.str "c@x.com") ∧
      dictLookup c6wOut "from_" = none :=
  smtp_C6_alias_resolution c6wData c6wOut (.str "c@x.com")
    (by decide) (by decide) (by decide)

/-! ## Structural lemmas about `_send_notification` -/

theorem handleExc_caught (data : Data) (st : SMTPState) (tr : List Event)
    (e : Exc) (h : e.caught = true) :
    handleExc data st tr e = (st, tr, .ok (create_response data (some [e.str]))) := by
  simp [handleExc, h]

theorem handleExc_uncaught (data : Data) (st : SMTPState) (tr : List Event)
    (e : Exc) (h : e.caught = false) :
    handleExc data st tr e = (st, tr, .error e) := by
  simp [handleExc, h]

/-- Everything the tail of the `try` block can do: it never touches the
instance state, it appends при most one `sendMessage` event to the trace,
and its result is a success Response, a caught-exception Response with a
one-element error list, or an uncaught exception. -/
theorem send_body_cases (w : World) (data : Data) (st : SMTPState)
    (tr : List Event) :
    (send_body w data st tr).1 = st ∧
      ((send_body w data st tr).2.1 = tr ∨
        ∃ em, (send_body w data st tr).2.1 = tr ++ [Event.sendMessage em]) ∧
      ((∃ e : Exc, e.caught = true ∧
          (send_body w data st tr).2.2 =
            .ok (create_response data (some [e.str]))) ∨
        (send_body w data st tr).2.2 = .ok (create_response data none) ∨
        (∃ e : Exc, e.caught = false ∧
          (send_body w data st tr).2.2 = .error e)) := by
  unfold send_body
  cases hb : build_email data with
  | error e =>
      dsimp only
      by_cases hc : e.caught = true
      · rw [handleExc_caught data st tr e hc]
        exact ⟨rfl, .inl rfl, .inl ⟨e, hc, rfl⟩⟩
      · have hf : e.caught = false := by simpa using hc
        rw [handleExc_uncaught data st tr e hf]
        exact ⟨rfl, .inl rfl, .inr (.inr ⟨e, hf, rfl⟩)⟩
  | ok email =>
      dsimp only
      cases ha : (if attachments_truthy data then add_attachments w data email
                  else Except.ok email) with
      | error e =>
          dsimp only
          by_cases hc : e.caught = true
          · rw [handleExc_caught data st tr e hc]
            exact ⟨rfl, .inl rfl, .inl ⟨e, hc, rfl⟩⟩
          · have hf : e.caught = false := by simpa using hc
            rw [handleExc_uncaught data st tr e hf]
            exact ⟨rfl, .inl rfl, .inr (.inr ⟨e, hf, rfl⟩)⟩
      | ok email2 =>
          dsimp only
          cases hs : w.sendResult email2 with
          | some e =>
              dsimp only
              by_cases hc : e.caught = true
              · rw [handleExc_caught data st (tr ++ [Event.sendMessage email2]) e hc]
                exact ⟨rfl, .inr ⟨email2, rfl⟩, .inl ⟨e, hc, rfl⟩⟩
              · have hf : e.caught = false := by simpa using hc
                rw [handleExc_uncaught data st (tr ++ [Event.sendMessage email2]) e hf]
                exact ⟨rfl, .inr ⟨email2, rfl⟩, .inr (.inr ⟨e, hf, rfl⟩)⟩
          | none =>
              dsimp only
              exact ⟨rfl, .inr ⟨email2, rfl⟩, .inr (.inl rfl)⟩

theorem needsReconnect_false (st : SMTPState) (cfg : Config) (hd : Handle)
    (h1 : st.smtp_server = some hd) (h2 : st.configuration = some cfg) :
    needsReconnect st cfg = false := by
  simp [needsReconnect, h1, h2]

theorem needsReconnect_of_configuration_none (st : SMTPState) (cfg : Config)
    (h : st.configuration = none) : needsReconnect st cfg = true := by
  simp [needsReconnect, h]

theorem needsReconnect_of_ne (st : SMTPState) (cfg cfg' : Config)
    (h : st.configuration = some cfg') (hne : cfg' ≠ cfg) :
    needsReconnect st cfg = true := by
  simp [needsReconnect, h, hne]

/-- Evaluation of `_send_notification` when `_get_configuration`
raises. -/
theorem send_notification_eq_keyerr (w : World) (st : SMTPState)
    (data : Data) (e : Exc) (hg : get_configuration data = .error e) :
    send_notification w st data = handleExc data st [] e := by
  unfold send_notification
  simp [hg]

/-- Evaluation of `_send_notification` when the stored session is
reused. -/
theorem send_notification_eq_reuse (w : World) (st : SMTPState)
    (data : Data) (cfg : Config) (hg : get_configuration data = .ok cfg)
    (hnr : needsReconnect st cfg = false) :
    send_notification w st data = send_body w data st [] := by
  unfold send_notification
  simp [hg, hnr]

/-- Evaluation of `_send_notification` when `_connect_to_server` runs
and raises. -/
theorem send_notification_eq_connect_exc (w : World) (st st1 : SMTPState)
    (data : Data) (cfg : Config) (tr1 : List Event) (e : Exc)
    (hg : get_configuration data = .ok cfg)
    (hnr : needsReconnect st cfg = true)
    (hc : connect_to_server w st data = (st1, tr1, some e)) :
    send_notification w st data = handleExc data st1 tr1 e := by
  unfold send_notification
  simp [hg, hnr, hc]

/-- Evaluation of `_send_notification` when `_connect_to_server` runs
and succeeds. -/
theorem send_notification_eq_connect_ok (w : World) (st st1 : SMTPState)
    (data : Data) (cfg : Config) (tr1 : List Event)
    (hg : get_configuration data = .ok cfg)
    (hnr : needsReconnect st cfg = true)
    (hc : connect_to_server w st data = (st1, tr1, none)) :
    send_notification w st data = send_body w data st1 tr1 := by
  unfold send_notification
  simp [hg, hnr, hc]

/-- What a successful `_get_configuration` says about the dict. -/
theorem get_configuration_ok {data : Data} {cfg : Config}
    (hg : get_configuration data = .ok cfg) :
    dictLookup data "host" = some cfg.1 ∧
      dictLookup data "port" = some cfg.2.1 ∧
      dictLookup data "username" = cfg.2.2 := by
  unfold get_configuration dictGet at hg
  cases hh : dictLookup data "host" with
  | none =>
      simp only [hh] at hg
      exact (Except.noConfusion hg)
  | some h =>
      simp only [hh] at hg
      cases hp : dictLookup data "port" with
      | none =>
          simp only [hp] at hg
          exact (Except.noConfusion hg)
      | some p =>
          simp only [hp] at hg
          cases hg
          exact ⟨rfl, rfl, rfl⟩

theorem countConnects_append (a b : List Event) :
    countConnects (a ++ b) = countConnects a + countConnects b := by
  simp [countConnects, List.filter_append]

theorem countLogins_append (a b : List Event) :
    countLogins (a ++ b) = countLogins a + countLogins b := by
  simp [countLogins, List.filter_append]

/-- What the authentication tail can do: it never touches the state, and
it appends at most one `login` event built from the dict's credential
fields. -/
theorem connect_login_cases (w : World) (st : SMTPState) (data : Data)
    (tr : List Event) :
    (connect_login w st data tr).1 = st ∧
      ((connect_login w st data tr).2.1 = tr ∨
        ∃ u pw, dictLookup data "username" = some u ∧
          dictLookup data "password" = some pw ∧
          (connect_login w st data tr).2.1 = tr ++ [Event.login u pw]) := by
  unfold connect_login
  cases hu : dictLookup data "username" with
  | none => exact ⟨rfl, .inl rfl⟩
  | some u =>
      dsimp only
      by_cases ht : u.truthy = true
      · rw [if_pos ht]
        cases hpw : dictLookup data "password" with
        | none => exact ⟨rfl, .inl rfl⟩
        | some pw =>
            dsimp only
            exact ⟨rfl, .inr ⟨u, pw, rfl, rfl, rfl⟩⟩
      · rw [if_neg ht]
        exact ⟨rfl, .inl rfl⟩

/-- The value of `_get_configuration` given the host/port lookups. -/
theorem get_configuration_eval (data : Data) (h p : Value)
    (hh : dictLookup data "host" = some h)
    (hp : dictLookup data "port" = some p) :
    get_configuration data = .ok (h, p, dictLookup data "username") := by
  unfold get_configuration dictGet
  simp [hh, hp]

/-- Once the `ssl`, `host` and `port` keys are present, every run of
`_connect_to_server` issues exactly one `connect` call, whatever the
oracle answers. -/
theorem connect_to_server_trace_connects (w : World) (st : SMTPState)
    (data : Data) (vssl h p : Value)
    (hssl : dictLookup data "ssl" = some vssl)
    (hh : dictLookup data "host" = some h)
    (hp : dictLookup data "port" = some p) :
    countConnects (connect_to_server w st data).2.1 = 1 := by
  unfold connect_to_server
  simp only [hssl, hh, hp]
  cases hcr : w.connectResult h p with
  | some e => simp [countConnects]
  | none =>
      simp only [get_configuration_eval data h p hh hp]
      cases htls : dictLookup data "tls" with
      | none => simp [countConnects]
      | some vtls =>
          simp only [htls]
          by_cases hcond : (vtls.truthy && !vssl.truthy) = true
          · rw [if_pos hcond]
            cases he : w.ehloResult with
            | some e => simp [countConnects]
            | none =>
                simp only [he]
                cases hst : w.starttlsResult with
                | some e => simp [countConnects]
                | none =>
                    simp only [hst]
                    simp only [List.cons_append, List.nil_append]
                    obtain ⟨-, htr⟩ := connect_login_cases w
                      { st with
                          smtp_server := some { id := st.nextId, ssl := vssl.truthy },
                          nextId := st.nextId + 1,
                          configuration := some (h, p, dictLookup data "username") }
                      data [Event.connect h p, Event.ehlo, Event.starttls]
                    rcases htr with htr | ⟨u, pw, _, _, htr⟩ <;>
                      rw [htr] <;> simp [countConnects, countConnects_append]
          · rw [if_neg hcond]
            obtain ⟨-, htr⟩ := connect_login_cases w
              { st with
                  smtp_server := some { id := st.nextId, ssl := vssl.truthy },
                  nextId := st.nextId + 1,
                  configuration := some (h, p, dictLookup data "username") }
              data [Event.connect h p]
            rcases htr with htr | ⟨u, pw, _, _, htr⟩ <;>
              rw [htr] <;> simp [countConnects, countConnects_append]

/-- When `_connect_to_server` finishes without an exception, the state
holds a fresh handle and the request's own Session Identity. -/
theorem connect_to_server_ok_state (w : World) (st : SMTPState)
    (data : Data) (cfg : Config)
    (hg : get_configuration data = .ok cfg)
    (hok : (connect_to_server w st data).2.2 = none) :
    ∃ b, (connect_to_server w st data).1 =
      { smtp_server := some { id := st.nextId, ssl := b },
        configuration := some cfg, nextId := st.nextId + 1 } := by
  obtain ⟨hh, hp, hu⟩ := get_configuration_ok hg
  unfold connect_to_server at hok ⊢
  cases hssl : dictLookup data "ssl" with
  | none =>
      simp only [hssl] at hok
      exact (Option.noConfusion hok)
  | some vssl =>
      simp only [hssl, hh, hp] at hok ⊢
      cases hcr : w.connectResult cfg.1 cfg.2.1 with
      | some e =>
          simp only [hcr] at hok
          exact (Option.noConfusion hok)
      | none =>
          simp only [hcr, hg] at hok ⊢
          cases htls : dictLookup data "tls" with
          | none =>
              simp only [htls] at hok
              exact (Option.noConfusion hok)
          | some vtls =>
              simp only [htls] at hok ⊢
              by_cases hcond : (vtls.truthy && !vssl.truthy) = true
              · rw [if_pos hcond] at hok ⊢
                cases he : w.ehloResult with
                | some e =>
                    simp only [he] at hok
                    exact (Option.noConfusion hok)
                | none =>
                    simp only [he] at hok ⊢
                    cases hstl : w.starttlsResult with
                    | some e =>
                        simp only [hstl] at hok
                        exact (Option.noConfusion hok)
                    | none =>
                        simp only [hstl] at hok ⊢
                        obtain ⟨h1, -⟩ := connect_login_cases w _ data _
                        exact ⟨vssl.truthy, by rw [h1]⟩
              · rw [if_neg hcond] at hok ⊢
                obtain ⟨h1, -⟩ := connect_login_cases w _ data _
                exact ⟨vssl.truthy, by rw [h1]⟩

/-! ## Concrete fixtures used by witnesses and counterexamples -/

/-- A transport world in which every call succeeds and every file
exists. -/
def okWorld : World :=
  { connectResult := fun _ _ => none, ehloResult := none,
    starttlsResult := none, loginResult := fun _ _ => none,
    sendResult := fun _ => none, fs := fun _ => some [104, 105] }

/-- A typical normalized request (as `_send_notification` receives it). -/
def baseData : Data :=
  [("message", .str "hi"), ("to", .str "a@x.com"),
   ("username", .str "user"), ("password", .str "pass"),
   ("subject", .str "s"), ("from", .str "b@x.com"),
   ("host", .str "smtp.example.com"), ("port", .int 25),
   ("tls", .bool false), ("ssl", .bool false), ("html", .bool false)]

/-- The Session Identity of `baseData`. -/
def baseCfg : Config := (.str "smtp.example.com", .int 25, some (.str "user"))

/-- The email `_build_email` builds from `baseData`. -/
def baseEmail : Email :=
  { to' := .str "a@x.com", from' := .str "b@x.com", subject := .str "s",
    contentType := "plain", message := .str "hi", attachments := [] }

/-- An instance state already connected with `baseData`'s identity. -/
def baseSt : SMTPState :=
  { smtp_server := some { id := 0, ssl := false },
    configuration := some baseCfg, nextId := 1 }

/-- Like `okWorld`, except that the remote refuses the sender on transmit. -/
def senderRefusedWorld : World :=
  { okWorld with sendResult := fun _ => some (.smtpSenderRefused "550 refused") }

/-- Like `okWorld`, except that transmitting raises an exception outside the
closed `except` set. -/
def otherFailWorld : World :=
  { okWorld with sendResult := fun _ => some (.other "boom") }

/-- Like `okWorld`, except that authentication is rejected. -/
def authFailWorld : World :=
  { okWorld with
      loginResult := fun _ _ => some (.smtpAuthenticationError "535 bad credentials") }

/-! ## C1: the Response error discipline of `_send_notification` -/

/-- C1: every Response `_send_notification` returns has exactly one
of: no errors (success) or a non-empty list of error strings; and every
exception of the closed transport-failure set is converted into the
error list — an exception escapes the dispatch boundary only if it is
outside the closed set. -/
theorem smtp_C1_response_error_discipline (w : World) (st : SMTPState)
    (data : Data) :
    (∀ r, (send_notification w st data).2.2 = .ok r →
        (r.success = true ∧ r.errors = none) ∨
          (r.success = false ∧ ∃ msgs, r.errors = some msgs ∧ msgs ≠ [])) ∧
      (∀ e, (send_notification w st data).2.2 = .error e →
        e.caught = false) := by
  have hbody : ∀ (st1 : SMTPState) (tr1 : List Event),
      (∀ r, (send_body w data st1 tr1).2.2 = .ok r →
          (r.success = true ∧ r.errors = none) ∨
            (r.success = false ∧ ∃ msgs, r.errors = some msgs ∧ msgs ≠ [])) ∧
        (∀ e, (send_body w data st1 tr1).2.2 = .error e → e.caught = false) := by
    intro st1 tr1
    obtain ⟨-, -, hres⟩ := send_body_cases w data st1 tr1
    rcases hres with ⟨e, hc, he⟩ | he | ⟨e, hc, he⟩
    · constructor
      · intro r hr
        rw [he] at hr
        cases hr
        exact .inr ⟨rfl, [e.str], rfl, by simp⟩
      · intro e' he'
        rw [he] at he'
        exact (Except.noConfusion he')
    · constructor
      · intro r hr
        rw [he] at hr
        cases hr
        exact .inl ⟨rfl, rfl⟩
      · intro e' he'
        rw [he] at he'
        exact (Except.noConfusion he')
    · constructor
      · intro r hr
        rw [he] at hr
        exact (Except.noConfusion hr)
      · intro e' he'
        rw [he] at he'
        cases he'
        exact hc
  have hexc : ∀ (st1 : SMTPState) (tr1 : List Event) (e : Exc),
      (∀ r, (handleExc data st1 tr1 e).2.2 = .ok r →
          (r.success = true ∧ r.errors = none) ∨
            (r.success = false ∧ ∃ msgs, r.errors = some msgs ∧ msgs ≠ [])) ∧
        (∀ e', (handleExc data st1 tr1 e).2.2 = .error e' →
          e'.caught = false) := by
    intro st1 tr1 e
    by_cases hc : e.caught = true
    · rw [handleExc_caught data st1 tr1 e hc]
      constructor
      · intro r hr
        cases hr
        exact .inr ⟨rfl, [e.str], rfl, by simp⟩
      · intro e' he'
        exact (Except.noConfusion he')
    · have hf : e.caught = false := by simpa using hc
      rw [handleExc_uncaught data st1 tr1 e hf]
      constructor
      · intro r hr
        exact (Except.noConfusion hr)
      · intro e' he'
        cases he'
        exact hf
  cases hg : get_configuration data with
  | error e =>
      rw [send_notification_eq_keyerr w st data e hg]
      exact hexc st [] e
  | ok cfg =>
      by_cases hnr : needsReconnect st cfg = true
      · rcases hcs : connect_to_server w st data with ⟨st1, tr1, r1⟩
        cases r1 with
        | some e =>
            rw [send_notification_eq_connect_exc w st st1 data cfg tr1 e hg hnr hcs]
            exact hexc st1 tr1 e
        | none =>
            rw [send_notification_eq_connect_ok w st st1 data cfg tr1 hg hnr hcs]
            exact hbody st1 tr1
      · have hnr2 : needsReconnect st cfg = false := by simpa using hnr
        rw [send_notification_eq_reuse w st data cfg hg hnr2]
        exact hbody st []

/-- Witness for C1 at a concrete input: the all-success run is a
success Response with no errors. -/
theorem smtp_C1_witness :
    ((create_response baseData none).success = true ∧
        (create_response baseData none).errors = none) ∨
      ((create_response baseData none).success = false ∧
        ∃ msgs, (create_response baseData none).errors = some msgs ∧
          msgs ≠ []) :=
  (smtp_C1_response_error_discipline okWorld SMTP.init baseData).1
    (create_response baseData none) (by decide)

/-! ## C8: transmission failure leaves the session untouched -/

/-- C8: whenever the stored session's identity equals the request's
(the situation after a session was established for this identity), the
dispatch call returns the instance state verbatim — stored handle and
stored identity unchanged whatever the transmit outcome, in particular
when the remote refuses the sender — and issues no `connect`, so the
next dispatch with equal identity reuses the connection. -/
theorem smtp_C8_transmission_failure_keeps_session (w : World)
    (st : SMTPState) (data : Data) (cfg : Config) (hd : Handle)
    (hs : st.smtp_server = some hd) (hc : st.configuration = some cfg)
    (hg : get_configuration data = .ok cfg) :
    (send_notification w st data).1 = st ∧
      countConnects (send_notification w st data).2.1 = 0 := by
  rw [send_notification_eq_reuse w st data cfg hg
    (needsReconnect_false st cfg hd hs hc)]
  obtain ⟨hst, htr, -⟩ := send_body_cases w data st []
  refine ⟨hst, ?_⟩
  rcases htr with h | ⟨em, h⟩ <;> rw [h] <;> simp [countConnects]

/-- Witness for C8: a connected instance, a remote that refuses the
sender — state and identity survive the failed dispatch. -/
theorem smtp_C8_witness :
    (send_notification senderRefusedWorld baseSt baseData).1 = baseSt ∧
      countConnects (send_notification senderRefusedWorld baseSt baseData).2.1 = 0 :=
  smtp_C8_transmission_failure_keeps_session senderRefusedWorld baseSt
    baseData baseCfg { id := 0, ssl := false } (by decide) (by decide) (by decide)

/-! ## C9: unknown exception kinds propagate -/

/-- C9: an exception raised by the transmit call that is outside the
closed transport-failure set is not converted into the Response's error
list: it propagates out of `_send_notification` to the caller. -/
theorem smtp_C9_unknown_exception_propagates (w : World) (st : SMTPState)
    (data : Data) (cfg : Config) (hd : Handle) (email : Email) (e : Exc)
    (hs : st.smtp_server = some hd) (hc : st.configuration = some cfg)
    (hg : get_configuration data = .ok cfg)
    (hb : build_email data = .ok email)
    (hatt : attachments_truthy data = false)
    (hsend : w.sendResult email = some e) (hcaught : e.caught = false) :
    (send_notification w st data).2.2 = .error e := by
  rw [send_notification_eq_reuse w st data cfg hg
    (needsReconnect_false st cfg hd hs hc)]
  unfold send_body
  simp only [hb, hatt, Bool.false_eq_true, if_false, hsend]
  rw [handleExc_uncaught data st ([] ++ [Event.sendMessage email]) e hcaught]

/-- Witness for C9: a transmit failure of an unrecognized kind escapes
as an exception instead of being mapped into the Response. -/
theorem smtp_C9_witness :
    (send_notification otherFailWorld baseSt baseData).2.2 =
      .error (.other "boom") :=
  smtp_C9_unknown_exception_propagates otherFailWorld baseSt baseData
    baseCfg { id := 0, ssl := false } baseEmail (.other "boom")
    (by decide) (by decide) (by decide) (by decide) (by decide) (by decide)
    (by decide)

/-! ## C10: the reuse decision is independent of the password -/

/-- C10: two requests that agree on every key except `password`
yield the same Session Identity, hence the same reuse/reconnect
decision in every state; and on an instance whose stored identity
matches, the dispatch performs no `login` and no `connect` at all, so
the differing password is never sent to the server and the state is
unchanged. -/
theorem smtp_C10_password_independent_reuse (w : World) (st : SMTPState)
    (d1 d2 : Data)
    (hdiff : ∀ k, k ≠ "password" → dictLookup d1 k = dictLookup d2 k) :
    get_configuration d1 = get_configuration d2 ∧
      (∀ cfg1 cfg2, get_configuration d1 = .ok cfg1 →
        get_configuration d2 = .ok cfg2 →
        needsReconnect st cfg1 = needsReconnect st cfg2) ∧
      (∀ cfg hd, st.smtp_server = some hd → st.configuration = some cfg →
        get_configuration d2 = .ok cfg →
        (∀ u pw, Event.login u pw ∉ (send_notification w st d2).2.1) ∧
          (∀ h p, Event.connect h p ∉ (send_notification w st d2).2.1) ∧
          (send_notification w st d2).1 = st) := by
  have hg12 : get_configuration d1 = get_configuration d2 := by
    unfold get_configuration dictGet
    rw [hdiff "host" (by decide), hdiff "port" (by decide),
      hdiff "username" (by decide)]
  refine ⟨hg12, ?_, ?_⟩
  · intro cfg1 cfg2 h1 h2
    rw [hg12, h2] at h1
    cases h1
    rfl
  · intro cfg hd hs hc hg
    rw [send_notification_eq_reuse w st d2 cfg hg
      (needsReconnect_false st cfg hd hs hc)]
    obtain ⟨hst, htr, -⟩ := send_body_cases w d2 st []
    refine ⟨?_, ?_, hst⟩
    · intro u pw
      rcases htr with h | ⟨em, h⟩ <;> rw [h] <;> simp
    · intro h p
      rcases htr with h2 | ⟨em, h2⟩ <;> rw [h2] <;> simp

/-- Request `baseData` with a different password. -/
def c10Data : Data :=
  [("message", .str "hi"), ("to", .str "a@x.com"),
   ("username", .str "user"), ("password", .str "stolen-password"),
   ("subject", .str "s"), ("from", .str "b@x.com"),
   ("host", .str "smtp.example.com"), ("port", .int 25),
   ("tls", .bool false), ("ssl", .bool false), ("html", .bool false)]

/-- Witness for C10: a request differing from `baseData` only in the
password reuses the live session and never logs in. -/
theorem smtp_C10_witness :
    (∀ u pw, Event.login u pw ∉ (send_notification okWorld baseSt c10Data).2.1) ∧
      (∀ h p, Event.connect h p ∉ (send_notification okWorld baseSt c10Data).2.1) ∧
      (send_notification okWorld baseSt c10Data).1 = baseSt :=
  (smtp_C10_password_independent_reuse okWorld baseSt baseData c10Data
      (by
        intro k hk
        have hk2 : "password" ≠ k := fun hh => hk hh.symm
        simp [baseData, c10Data, dictLookup, hk2])).2.2
    baseCfg { id := 0, ssl := false } (by decide) (by decide) (by decide)

/-! ## C2: what failure really does to the session state -/

/-- C2, counterexample: dispatching `baseData` on a fresh instance
against a server that rejects authentication surfaces the error in the
Response — but the session manager is NOT left in the `Disconnected`
state: the stored handle and the stored identity are both set (to the
fresh client and the failed request's identity), and a second dispatch
with the same Session Identity issues no `connect` and no `login` at
all instead of re-running the connect-and-authenticate sequence. -/
theorem smtp_C2_counterexample :
    (send_notification authFailWorld SMTP.init baseData).2.2 =
        .ok (create_response baseData (some ["535 bad credentials"])) ∧
      (send_notification authFailWorld SMTP.init baseData).1.smtp_server ≠ none ∧
      (send_notification authFailWorld SMTP.init baseData).1.configuration ≠ none ∧
      countConnects (send_notification authFailWorld
        (send_notification authFailWorld SMTP.init baseData).1 baseData).2.1 = 0 ∧
      countLogins (send_notification authFailWorld
        (send_notification authFailWorld SMTP.init baseData).1 baseData).2.1 = 0 := by
  decide

/-- C2 (amended): connection-level and authentication failures are
surfaced as dispatch errors but clear nothing.  After a failed `connect`
the fresh unconnected handle replaces the old one and the previous
stored identity persists; after a failed authentication both the fresh
handle and the NEW identity are stored — `needsReconnect` is then false
for that same identity, so the next dispatch with it skips the
connect-and-authenticate sequence instead of re-running it. -/
theorem smtp_C2_failure_leaves_state (w : World) (st : SMTPState)
    (data : Data) (vssl h p u pw : Value) (m : String)
    (hssl : dictLookup data "ssl" = some vssl)
    (hh : dictLookup data "host" = some h)
    (hp : dictLookup data "port" = some p) :
    (∀ e, w.connectResult h p = some e →
      connect_to_server w st data =
        ({ smtp_server := some { id := st.nextId, ssl := vssl.truthy },
           configuration := st.configuration, nextId := st.nextId + 1 },
         [Event.connect h p], some e)) ∧
      (w.connectResult h p = none →
        ∀ vtls, dictLookup data "tls" = some vtls →
          (vtls.truthy && !vssl.truthy) = false →
          dictLookup data "username" = some u → u.truthy = true →
          dictLookup data "password" = some pw →
          w.loginResult u pw = some (.smtpAuthenticationError m) →
          connect_to_server w st data =
            ({ smtp_server := some { id := st.nextId, ssl := vssl.truthy },
               configuration := some (h, p, some u), nextId := st.nextId + 1 },
             [Event.connect h p, Event.login u pw],
             some (.smtpAuthenticationError m)) ∧
          needsReconnect
            { smtp_server := some { id := st.nextId, ssl := vssl.truthy },
              configuration := some (h, p, some u), nextId := st.nextId + 1 }
            (h, p, some u) = false) := by
  constructor
  · intro e hcr
    unfold connect_to_server
    simp only [hssl, hh, hp, hcr]
  · intro hcr vtls htls hcond hu hut hpw hlr
    constructor
    · unfold connect_to_server
      simp only [hssl, hh, hp, hcr, get_configuration_eval data h p hh hp,
        htls, hcond, Bool.false_eq_true, if_false]
      unfold connect_login
      simp only [hu, hut, if_true, hpw, hlr]
      simp [List.cons_append, List.nil_append]
    · simp [needsReconnect]

/-- Witness for the amended C2 at a concrete input: the failed-auth
state keeps the fresh handle and the new identity, and the stored
identity matches the request's, so no reconnect would follow. -/
theorem smtp_C2_witness :
    connect_to_server authFailWorld SMTP.init baseData =
        ({ smtp_server := some { id := 0, ssl := false },
           configuration := some (.str "smtp.example.com", .int 25,
             some (.str "user")), nextId := 1 },
         [Event.connect (.str "smtp.example.com") (.int 25),
          Event.login (.str "user") (.str "pass")],
         some (.smtpAuthenticationError "535 bad credentials")) ∧
      needsReconnect
        { smtp_server := some { id := 0, ssl := false },
          configuration := some (.str "smtp.example.com", .int 25,
            some (.str "user")), nextId := 1 }
        (.str "smtp.example.com", .int 25, some (.str "user")) = false :=
  (smtp_C2_failure_leaves_state authFailWorld SMTP.init baseData
      (.bool false) (.str "smtp.example.com") (.int 25) (.str "user")
      (.str "pass") "535 bad credentials"
      (by decide) (by decide) (by decide)).2
    (by decide) (.bool false) (by decide) (by decide) (by decide) (by decide)
    (by decide) (by decide)

/-! ## C3: session reuse across consecutive dispatches -/

/-- C3: on a fresh provider instance, a successful dispatch runs the
connect sequence exactly once; a second dispatch with equal Session
Identity issues no `connect` and no `login` (the live session is
reused) and leaves the state untouched; and a third dispatch whose
identity differs issues a second `connect`. -/
theorem smtp_C3_session_reuse (w : World) (d1 d2 d3 : Data)
    (cfg cfg3 : Config) (vssl vssl3 : Value) (resp1 : Response)
    (hg1 : get_configuration d1 = .ok cfg)
    (hg2 : get_configuration d2 = .ok cfg)
    (hg3 : get_configuration d3 = .ok cfg3)
    (hne : cfg3 ≠ cfg)
    (hssl1 : dictLookup d1 "ssl" = some vssl)
    (hssl3 : dictLookup d3 "ssl" = some vssl3)
    (h1 : (send_notification w SMTP.init d1).2.2 = .ok resp1)
    (hok1 : resp1.errors = none) :
    countConnects (send_notification w SMTP.init d1).2.1 = 1 ∧
      countConnects
        (send_notification w (send_notification w SMTP.init d1).1 d2).2.1 = 0 ∧
      countLogins
        (send_notification w (send_notification w SMTP.init d1).1 d2).2.1 = 0 ∧
      (send_notification w (send_notification w SMTP.init d1).1 d2).1 =
        (send_notification w SMTP.init d1).1 ∧
      countConnects
        (send_notification w
          (send_notification w (send_notification w SMTP.init d1).1 d2).1
          d3).2.1 = 1 := by
  have hnr1 : needsReconnect SMTP.init cfg = true :=
    needsReconnect_of_configuration_none SMTP.init cfg rfl
  rcases hcs : connect_to_server w SMTP.init d1 with ⟨st1, tr1, r1⟩
  cases r1 with
  | some e =>
      rw [send_notification_eq_connect_exc w SMTP.init st1 d1 cfg tr1 e
        hg1 hnr1 hcs] at h1
      exfalso
      by_cases hc : e.caught = true
      · rw [handleExc_caught d1 st1 tr1 e hc] at h1
        cases h1
        exact (Option.noConfusion hok1)
      · rw [handleExc_uncaught d1 st1 tr1 e (by simpa using hc)] at h1
        exact (Except.noConfusion h1)
  | none =>
      have heq1 : send_notification w SMTP.init d1 = send_body w d1 st1 tr1 :=
        send_notification_eq_connect_ok w SMTP.init st1 d1 cfg tr1 hg1 hnr1 hcs
      obtain ⟨hh1, hp1, hu1⟩ := get_configuration_ok hg1
      have hokc : (connect_to_server w SMTP.init d1).2.2 = none := by rw [hcs]
      obtain ⟨b, hst1⟩ := connect_to_server_ok_state w SMTP.init d1 cfg hg1 hokc
      rw [hcs] at hst1
      have hst1b : st1 =
          { smtp_server := some { id := SMTP.init.nextId, ssl := b },
            configuration := some cfg, nextId := SMTP.init.nextId + 1 } := hst1
      have hcount1 : countConnects tr1 = 1 := by
        have hcc := connect_to_server_trace_connects w SMTP.init d1 vssl
          cfg.1 cfg.2.1 hssl1 hh1 hp1
        rw [hcs] at hcc
        exact hcc
      obtain ⟨hbst, hbtr, -⟩ := send_body_cases w d1 st1 tr1
      have c1 : countConnects (send_notification w SMTP.init d1).2.1 = 1 := by
        rw [heq1]
        rcases hbtr with h | ⟨em, h⟩
        · rw [h]
          exact hcount1
        · rw [h, countConnects_append, hcount1]
          simp [countConnects]
      have hstate1 : (send_notification w SMTP.init d1).1 = st1 := by
        rw [heq1, hbst]
      have hnr2 : needsReconnect st1 cfg = false := by
        rw [hst1b]
        exact needsReconnect_false _ cfg _ rfl rfl
      have heq2 : send_notification w st1 d2 = send_body w d2 st1 [] :=
        send_notification_eq_reuse w st1 d2 cfg hg2 hnr2
      obtain ⟨hbst2, hbtr2, -⟩ := send_body_cases w d2 st1 []
      have hstate2 : (send_notification w st1 d2).1 = st1 := by
        rw [heq2, hbst2]
      have c2conn : countConnects (send_notification w st1 d2).2.1 = 0 := by
        rw [heq2]
        rcases hbtr2 with h | ⟨em, h⟩ <;> rw [h] <;> simp [countConnects]
      have c2log : countLogins (send_notification w st1 d2).2.1 = 0 := by
        rw [heq2]
        rcases hbtr2 with h | ⟨em, h⟩ <;> rw [h] <;> simp [countLogins]
      have hnr3 : needsReconnect st1 cfg3 = true := by
        rw [hst1b]
        exact needsReconnect_of_ne _ cfg3 cfg rfl (Ne.symm hne)
      obtain ⟨hh3, hp3, hu3⟩ := get_configuration_ok hg3
      have hcount3 := connect_to_server_trace_connects w st1 d3 vssl3
        cfg3.1 cfg3.2.1 hssl3 hh3 hp3
      rcases hcs3 : connect_to_server w st1 d3 with ⟨st3, tr3, r3⟩
      rw [hcs3] at hcount3
      have c3 : countConnects (send_notification w st1 d3).2.1 = 1 := by
        cases r3 with
        | some e =>
            rw [send_notification_eq_connect_exc w st1 st3 d3 cfg3 tr3 e
              hg3 hnr3 hcs3]
            by_cases hc : e.caught = true
            · rw [handleExc_caught d3 st3 tr3 e hc]
              exact hcount3
            · rw [handleExc_uncaught d3 st3 tr3 e (by simpa using hc)]
              exact hcount3
        | none =>
            rw [send_notification_eq_connect_ok w st1 st3 d3 cfg3 tr3
              hg3 hnr3 hcs3]
            obtain ⟨-, hbtr3, -⟩ := send_body_cases w d3 st3 tr3
            rcases hbtr3 with h | ⟨em, h⟩
            · rw [h]
              exact hcount3
            · rw [h, countConnects_append, hcount3]
              simp [countConnects]
      rw [hstate1, hstate2]
      exact ⟨c1, c2conn, c2log, rfl, c3⟩

/-- Request `baseData` pointed at a different host. -/
def c3Data3 : Data :=
  [("message", .str "hi"), ("to", .str "a@x.com"),
   ("username", .str "user"), ("password", .str "pass"),
   ("subject", .str "s"), ("from", .str "b@x.com"),
   ("host", .str "smtp2.example.com"), ("port", .int 25),
   ("tls", .bool false), ("ssl", .bool false), ("html", .bool false)]

/-- Witness for C3: two dispatches of `baseData` then one to a second
host — one connect, then zero, then one more. -/
theorem smtp_C3_witness :
    countConnects (send_notification okWorld SMTP.init baseData).2.1 = 1 ∧
      countConnects
        (send_notification okWorld
          (send_notification okWorld SMTP.init baseData).1 baseData).2.1 = 0 ∧
      countLogins
        (send_notification okWorld
          (send_notification okWorld SMTP.init baseData).1 baseData).2.1 = 0 ∧
      (send_notification okWorld
          (send_notification okWorld SMTP.init baseData).1 baseData).1 =
        (send_notification okWorld SMTP.init baseData).1 ∧
      countConnects
        (send_notification okWorld
          (send_notification okWorld
            (send_notification okWorld SMTP.init baseData).1 baseData).1
          c3Data3).2.1 = 1 :=
  smtp_C3_session_reuse okWorld baseData baseData c3Data3 baseCfg
    (.str "smtp2.example.com", .int 25, some (.str "user"))
    (.bool false) (.bool false) (create_response baseData none)
    (by decide) (by decide) (by decide) (by decide) (by decide) (by decide)
    (by decide) (by decide)

/-! ## C5: encryption is set up before any authentication -/

/-- C5: if the request sets `ssl` (truthy), the implicitly-encrypted
client class (`SMTP_SSL`) is instantiated and no `ehlo`/`starttls`
upgrade handshake is ever issued; otherwise, if `tls` is truthy, any
authentication that happens is strictly preceded by the upgrade — the
trace is then exactly `connect`, `ehlo`, `starttls`, `login`. -/
theorem smtp_C5_encryption_ordering (w : World) (st : SMTPState)
    (data : Data) (vssl : Value)
    (hssl : dictLookup data "ssl" = some vssl) :
    (vssl.truthy = true →
      (connect_to_server w st data).1.smtp_server =
          some { id := st.nextId, ssl := true } ∧
        Event.ehlo ∉ (connect_to_server w st data).2.1 ∧
        Event.starttls ∉ (connect_to_server w st data).2.1) ∧
      (∀ vtls, vssl.truthy = false → dictLookup data "tls" = some vtls →
        vtls.truthy = true →
        ∀ u pw, Event.login u pw ∈ (connect_to_server w st data).2.1 →
          ∃ h p, (connect_to_server w st data).2.1 =
            [Event.connect h p, Event.ehlo, Event.starttls,
             Event.login u pw]) := by
  unfold connect_to_server
  simp only [hssl]
  constructor
  · intro htr
    simp only [htr]
    cases hh : dictLookup data "host" with
    | none =>
        simp only [hh]
        exact ⟨by trivial, by simp, by simp⟩
    | some h =>
        simp only [hh]
        cases hp : dictLookup data "port" with
        | none =>
            simp only [hp]
            exact ⟨by trivial, by simp, by simp⟩
        | some p =>
            simp only [hp]
            cases hcr : w.connectResult h p with
            | some e =>
                simp only [hcr]
                exact ⟨by trivial, by simp, by simp⟩
            | none =>
                simp only [hcr, get_configuration_eval data h p hh hp]
                cases htls : dictLookup data "tls" with
                | none =>
                    simp only [htls]
                    exact ⟨by trivial, by simp, by simp⟩
                | some vtls =>
                    simp only [htls]
                    rw [if_neg (by simp)]
                    obtain ⟨hcl1, hcl2⟩ := connect_login_cases w
                      { st with
                          smtp_server := some { id := st.nextId, ssl := true },
                          nextId := st.nextId + 1,
                          configuration := some (h, p, dictLookup data "username") }
                      data [Event.connect h p]
                    refine ⟨by rw [hcl1], ?_, ?_⟩ <;>
                      rcases hcl2 with h2 | ⟨u, pw, -, -, h2⟩ <;> rw [h2] <;> simp
  · intro vtls hfalse htls htr u pw hmem
    simp only [hfalse] at hmem ⊢
    cases hh : dictLookup data "host" with
    | none =>
        simp only [hh] at hmem
        simp at hmem
    | some h =>
        simp only [hh] at hmem ⊢
        cases hp : dictLookup data "port" with
        | none =>
            simp only [hp] at hmem
            simp at hmem
        | some p =>
            simp only [hp] at hmem ⊢
            cases hcr : w.connectResult h p with
            | some e =>
                simp only [hcr] at hmem
                simp at hmem
            | none =>
                simp only [hcr, get_configuration_eval data h p hh hp,
                  htls] at hmem ⊢
                have hcond : (vtls.truthy && !false) = true := by
                  rw [htr]
                  rfl
                rw [if_pos hcond] at hmem ⊢
                cases he : w.ehloResult with
                | some e =>
                    simp only [he] at hmem
                    simp at hmem
                | none =>
                    simp only [he] at hmem ⊢
                    cases hst : w.starttlsResult with
                    | some e =>
                        simp only [hst] at hmem
                        simp at hmem
                    | none =>
                        simp only [hst] at hmem ⊢
                        obtain ⟨-, hcl2⟩ := connect_login_cases w
                          { st with
                              smtp_server :=
                                some { id := st.nextId, ssl := false },
                              nextId := st.nextId + 1,
                              configuration :=
                                some (h, p, dictLookup data "username") }
                          data ([Event.connect h p] ++ [Event.ehlo] ++
                            [Event.starttls])
                        rcases hcl2 with h2 | ⟨u0, pw0, -, -, h2⟩
                        · rw [h2] at hmem
                          simp at hmem
                        · rw [h2] at hmem ⊢
                          simp only [List.cons_append, List.nil_append,
                            List.mem_append, List.mem_cons,
                            List.not_mem_nil, or_false] at hmem
                          rcases hmem with hmem | hmem | hmem | hmem
                          · exact absurd hmem (by simp)
                          · exact absurd hmem (by simp)
                          · exact absurd hmem (by simp)
                          · cases hmem
                            exact ⟨h, p, by simp⟩

/-- Request `baseData` with implicit SSL requested. -/
def c5Data : Data :=
  [("message", .str "hi"), ("to", .str "a@x.com"),
   ("username", .str "user"), ("password", .str "pass"),
   ("subject", .str "s"), ("from", .str "b@x.com"),
   ("host", .str "smtp.example.com"), ("port", .int 465),
   ("tls", .bool false), ("ssl", .bool true), ("html", .bool false)]

/-- Witness for C5: with `ssl: true` the stored client is the
SSL-from-the-start one and no upgrade handshake appears in the trace. -/
theorem smtp_C5_witness :
    (connect_to_server okWorld SMTP.init c5Data).1.smtp_server =
        some { id := 0, ssl := true } ∧
      Event.ehlo ∉ (connect_to_server okWorld SMTP.init c5Data).2.1 ∧
      Event.starttls ∉ (connect_to_server okWorld SMTP.init c5Data).2.1 :=
  (smtp_C5_encryption_ordering okWorld SMTP.init c5Data (.bool true)
      (by decide)).1 (by decide)

/-! ## C4: a bad attachment path stops the dispatch before the network -/

theorem merge_defaults_append (ds raw : Data) :
    ∃ ext, merge_defaults ds raw = raw ++ ext := by
  unfold merge_defaults
  induction ds generalizing raw with
  | nil => exact ⟨[], by simp⟩
  | cons kv rest ih =>
      simp only [List.foldl_cons]
      by_cases h : (dictLookup raw kv.1).isSome
      · rw [if_pos h]
        exact ih raw
      · rw [if_neg h]
        obtain ⟨ext, hext⟩ := ih (raw ++ [kv])
        exact ⟨[kv] ++ ext, by rw [hext, List.append_assoc]⟩

/-- The Defaults Merger never loses or overrides a caller-supplied
binding. -/
theorem merge_defaults_lookup (ds raw : Data) (k : String) (v : Value)
    (h : dictLookup raw k = some v) :
    dictLookup (merge_defaults ds raw) k = some v := by
  obtain ⟨ext, hext⟩ := merge_defaults_append ds raw
  rw [hext]
  exact dictLookup_append_left ext h

theorem dictLookup_mem {d : Data} {k : String} {v : Value}
    (h : dictLookup d k = some v) : (k, v) ∈ d := by
  induction d with
  | nil => simp [dictLookup] at h
  | cons kv rest ih =>
      obtain ⟨k0, v0⟩ := kv
      by_cases h0 : k0 = k
      · subst h0
        simp only [dictLookup, if_pos rfl] at h
        cases h
        exact List.mem_cons_self _ _
      · simp only [dictLookup, h0, if_false] at h
        exact List.mem_cons_of_mem _ (ih h)

theorem flatten_ne_nil_of_mem {α : Type} {l : List α} {L : List (List α)}
    (hmem : l ∈ L) (hne : l ≠ []) : L.flatten ≠ [] := by
  induction L with
  | nil => cases hmem
  | cons x xs ih =>
      simp only [List.flatten_cons]
      rcases List.mem_cons.mp hmem with rfl | hmem2
      · intro hcontra
        exact hne (List.append_eq_nil.mp hcontra).1
      · intro hcontra
        exact ih hmem2 (List.append_eq_nil.mp hcontra).2

/-- A missing/unreadable attachment file always fails validation. -/
theorem validate_ne_nil_of_bad_attachment
    (fs : String → Option (List Nat)) (data : Data) (v : Value) (p : String)
    (hv : dictLookup data "attachments" = some v)
    (hp : p ∈ attachmentPaths v) (hfs : fs p = none) :
    validate fs data ≠ [] := by
  unfold validate
  dsimp only
  by_cases hmiss :
      (List.filter (fun k => (dictLookup data k).isNone) requiredKeys).isEmpty = true
  · rw [hmiss, if_neg (by simp)]
    have hcf : checkField fs "attachments" v ≠ [] := by
      have hmem2 : ("attachments: not a valid file: " ++ p) ∈
          (attachmentPaths v).filterMap
            (fun q => if (fs q).isSome then none
                      else some ("attachments: not a valid file: " ++ q)) :=
        List.mem_filterMap.mpr ⟨p, hp, by rw [hfs]; rfl⟩
      have hB := List.ne_nil_of_mem hmem2
      show ((if oneOrMore Value.isStr v then []
             else ["attachments: expected one or more file paths"]) ++
          (attachmentPaths v).filterMap
            (fun q => if (fs q).isSome then none
                      else some ("attachments: not a valid file: " ++ q))) ≠ []
      intro hcontra
      exact hB (List.append_eq_nil.mp hcontra).2
    have hfield :
        ((data.map (fun kv => checkField fs kv.1 kv.2)).flatten : List String) ≠ [] :=
      flatten_ne_nil_of_mem
        (List.mem_map.mpr ⟨("attachments", v), dictLookup_mem hv, rfl⟩) hcf
    intro hcontra
    simp only [List.append_eq_nil] at hcontra
    apply hfield
    tauto
  · have hmiss2 :
        (List.filter (fun k => (dictLookup data k).isNone) requiredKeys).isEmpty = false := by
      simpa using hmiss
    rw [hmiss2, if_pos (by simp)]
    intro hcontra
    rw [List.map_eq_nil_iff] at hcontra
    rw [hcontra] at hmiss2
    simp [List.isEmpty] at hmiss2

/-- Evaluation of the Dispatcher when validation fails: the errors go
into the Response and nothing else runs. -/
theorem notify_eq_invalid (w : World) (st : SMTPState) (raw : Data)
    (herr : validate w.fs (merge_defaults defaults raw) ≠ []) :
    notify w st raw =
      (st, [], .ok (create_response (merge_defaults defaults raw)
        (some (validate w.fs (merge_defaults defaults raw))))) := by
  unfold notify
  rw [if_neg (by simpa [List.isEmpty_iff] using herr)]

/-- C4: for every request naming a missing or unreadable attachment
file, the dispatch returns a Response with a non-empty error list and
performs zero transport calls — the resource error surfaces during
schema validation (`valid_file`), before any connect, authenticate or
transmit could run. -/
theorem smtp_C4_bad_attachment_no_transport (w : World) (st : SMTPState)
    (raw : Data) (v : Value) (p : String)
    (hv : dictLookup raw "attachments" = some v)
    (hp : p ∈ attachmentPaths v) (hfs : w.fs p = none) :
    (notify w st raw).2.1 = [] ∧
      ∃ r, (notify w st raw).2.2 = .ok r ∧
        ∃ msgs, r.errors = some msgs ∧ msgs ≠ [] := by
  have hv2 : dictLookup (merge_defaults defaults raw) "attachments" = some v :=
    merge_defaults_lookup defaults raw _ v hv
  have herr := validate_ne_nil_of_bad_attachment w.fs _ v p hv2 hp hfs
  rw [notify_eq_invalid w st raw herr]
  exact ⟨rfl, _, rfl, _, rfl, herr⟩

/-- A world in which no file exists. -/
def noFileWorld : World := { okWorld with fs := fun _ => none }

/-- A raw request naming a nonexistent attachment. -/
def c4Raw : Data :=
  [("message", .str "hi"), ("to", .str "a@x.com"),
   ("username", .str "user"), ("password", .str "pass"),
   ("attachments", .str "/no/such/file")]

/-- Witness for C4: the nonexistent attachment yields a non-empty error
Response with an empty transport trace. -/
theorem smtp_C4_witness :
    (notify noFileWorld SMTP.init c4Raw).2.1 = [] ∧
      ∃ r, (notify noFileWorld SMTP.init c4Raw).2.2 = .ok r ∧
        ∃ msgs, r.errors = some msgs ∧ msgs ≠ [] :=
  smtp_C4_bad_attachment_no_transport noFileWorld SMTP.init c4Raw
    (.str "/no/such/file") "/no/such/file" (by decide) (by decide) rfl

end Notifiers
